import Mathlib

/-!
Verification development for the inkeep-agents-action repository.

The TypeScript sources are shallowly embedded as pure Lean functions.
Remote effects (the GitHub REST API, the OIDC provider, the token-exchange
endpoint, the dispatch endpoint) are modelled by a `World` record that holds
the data those calls would return, and the embedded functions additionally
return records of the outbound requests they would have made, so that
properties such as "no dispatch call occurs" are expressible.

External library primitives that are not part of the repository
(`minimatch`, `RegExp.test`, `JSON.stringify`, `JSON.parse`,
`crypto.createHmac`) are passed in as function parameters (the `Libs`
record); theorems quantify over them, since no claim depends on their
internal semantics.
-/

/-- JavaScript truthiness of an optional string: `undefined`, `null` and the
empty string are falsy. -/
def optTruthy : Option String → Bool
  | none => false
  | some s => s ≠ ""

/-- Models the idiom `core.getInput(name) || undefined`: an empty input
string becomes `undefined`. -/
def jsOptStr (s : String) : Option String :=
  if s = "" then none else some s

/-- Models `a || d` for an optional string `a` and a string default `d`:
the default is used when `a` is missing or empty. -/
def jsStrOr (a : Option String) (d : String) : String :=
  match a with
  | some s => if s = "" then d else s
  | none => d

/-- JavaScript truthiness of an optional number (0 is falsy). -/
def optNumTruthy : Option Nat → Bool
  | none => false
  | some n => n ≠ 0

/-- Models `a || null` for an optional number: 0 collapses to `null`. -/
def jsNumOrNull (a : Option Nat) : Option Nat :=
  match a with
  | some 0 => none
  | x => x

/-- Models `a || b` for two optional numbers (used for
`comment.line || comment.original_line`). -/
def jsNumOr (a b : Option Nat) : Option Nat :=
  if optNumTruthy a then a else b

/-- Boolean prefix test on character lists. -/
def isPrefixB : List Char → List Char → Bool
  | [], _ => true
  | _ :: _, [] => false
  | a :: as, b :: bs => a = b && isPrefixB as bs

/-- Boolean infix (substring) test on character lists. -/
def isInfixB (needle : List Char) : List Char → Bool
  | [] => isPrefixB needle []
  | c :: rest => isPrefixB needle (c :: rest) || isInfixB needle rest

/-- String containment: `strContains hay needle` is true when `needle`
occurs as a contiguous substring of `hay`. -/
def strContains (hay needle : String) : Bool :=
  isInfixB needle.toList hay.toList

/-- Scans forward to the first path character of a URL remainder: everything
before the first slash is host material; a query or fragment before any
slash means the pathname is empty (rendered as the root path). -/
def dropUntilSlash : List Char → List Char
  | [] => []
  | c :: rest =>
    if c = '/' then c :: rest
    else if c = '?' then []
    else if c = '#' then []
    else dropUntilSlash rest

/-- Takes path characters up to the start of the query or fragment. -/
def takePath : List Char → List Char
  | [] => []
  | c :: rest =>
    if c = '?' then []
    else if c = '#' then []
    else c :: takePath rest

/-- Splits a character list at the first occurrence of the
scheme separator, returning the characters before and after it. -/
def schemeSplit : List Char → Option (List Char × List Char)
  | [] => none
  | c :: rest =>
    if c = ':' then
      match rest with
      | '/' :: '/' :: tail => some ([], tail)
      | _ => (schemeSplit rest).map (fun pr => (c :: pr.1, pr.2))
    else (schemeSplit rest).map (fun pr => (c :: pr.1, pr.2))

/-- Models the `pathname` property of a parsed WHATWG URL for hierarchical
URLs of the form `scheme://authority/path?query#fragment`; returns `none`
when the string does not parse (the `new URL` constructor would throw).
This is a partial model: it covers the hierarchical URLs this action is
given, which is all the claims exercise. -/
def urlPathname (s : String) : Option String :=
  match schemeSplit s.toList with
  | none => none
  | some (scheme, after) =>
    if scheme = [] then none
    else
      let p := takePath (dropUntilSlash after)
      some (if p = [] then "/" else String.mk p)

/-- Helper for `stripQuery`: discards characters up to the fragment. -/
def dropToHash : List Char → List Char
  | [] => []
  | c :: rest => if c = '#' then c :: rest else dropToHash rest

/-- Helper for `stripQuery` on character lists. -/
def stripQueryAux : List Char → List Char
  | [] => []
  | c :: rest =>
    if c = '#' then c :: rest
    else if c = '?' then dropToHash rest
    else c :: stripQueryAux rest

/-- Models the sanitization in `sendTrigger`: `u = new URL(s); u.search = '';
u.toString()`, i.e. the URL with its query string removed (the fragment, if
any, is kept). -/
def stripQuery (s : String) : String :=
  String.mk (stripQueryAux s.toList)

/-- Models success of the WHATWG URL constructor (used by the zod `.url()`
refinement and by `new URL` call sites). -/
def isUrl (s : String) : Bool :=
  (urlPathname s).isSome

/-- Splits a character list on a separator character, keeping empty
segments, mirroring the JavaScript `split` method. -/
def splitOnChar (sep : Char) : List Char → List (List Char)
  | [] => [[]]
  | x :: rest =>
    match splitOnChar sep rest with
    | [] => [[]]
    | cur :: others =>
      if x = sep then [] :: cur :: others else (x :: cur) :: others

/-- Models `pathname.split('/')`. -/
def splitSlash (s : String) : List String :=
  (splitOnChar '/' s.toList).map String.mk

/-! ## Data model (src/types/index.ts) -/

/-- A GitHub user as mapped by the action (context.ts and pr.ts build these
with login, id, avatarUrl and url). -/
structure GitHubUser where
  login : String
  id : Nat
  avatarUrl : String
  url : String
deriving DecidableEq, Repr

/-- Repository record built by parseEventContext. -/
structure Repository where
  owner : String
  name : String
  fullName : String
  url : String
  defaultBranch : String
deriving DecidableEq, Repr

/-- Branch reference inside a pull request (base and head). -/
structure BranchRef where
  ref : String
  sha : String
deriving DecidableEq, Repr

/-- Pull request record built by fetchPullRequest. -/
structure PullRequest where
  number : Nat
  title : String
  body : Option String
  author : GitHubUser
  url : String
  state : String
  base : BranchRef
  head : BranchRef
  createdAt : String
  updatedAt : String
deriving DecidableEq, Repr

/-- The file-status enumeration of ChangedFileSchema. -/
inductive FileStatus where
  | added | modified | removed | renamed | copied | changed | unchanged
deriving DecidableEq, Repr

/-- Changed-file record built by fetchChangedFiles. -/
structure ChangedFile where
  path : String
  status : FileStatus
  additions : Nat
  deletions : Nat
  patch : Option String
  previousPath : Option String
  contents : Option String
deriving DecidableEq, Repr

/-- The comment-type enumeration of CommentSchema. -/
inductive CommentType where
  | issue | review | review_summary
deriving DecidableEq, Repr

/-- The review-state enumeration of CommentSchema. -/
inductive ReviewState where
  | APPROVED | CHANGES_REQUESTED | COMMENTED | DISMISSED | PENDING
deriving DecidableEq, Repr

/-- Comment record built by fetchComments. -/
structure Comment where
  id : Nat
  body : String
  author : GitHubUser
  createdAt : String
  updatedAt : Option String
  type : CommentType
  path : Option String := none
  line : Option Nat := none
  diffHunk : Option String := none
  isSuggestion : Option Bool := none
  state : Option ReviewState := none
deriving DecidableEq, Repr

/-- Event record (type and action). -/
structure GitHubEvent where
  type : String
  action : String
deriving DecidableEq, Repr

/-- The trigger payload assembled by run. -/
structure TriggerPayload where
  event : GitHubEvent
  repository : Repository
  pullRequest : PullRequest
  sender : GitHubUser
  changedFiles : List ChangedFile
  comments : List Comment
  triggerComment : Option Comment
deriving DecidableEq, Repr

/-- The trigger response shape (TriggerResponseSchema). -/
structure TriggerResponse where
  success : Bool
  invocationId : String
  conversationId : String
deriving DecidableEq, Repr

/-- Body of the token-exchange POST (auth/token.ts). -/
structure TokenExchangeRequest where
  oidc_token : String
  project_id : String
deriving DecidableEq, Repr

/-- Body of a successful token-exchange response (auth/token.ts). -/
structure TokenExchangeResponse where
  token : String
  expires_at : String
  repository : String
  installation_id : Nat
deriving DecidableEq, Repr

/-- Runtime validation content of TriggerPayloadSchema on a well-typed
payload value: every structural constraint of the zod schema (field
presence, primitive types, enumeration membership) holds by construction of
the Lean types, so the residual runtime checks are the two string-format
refinements, the url refinement on repository.url and on pullRequest.url.
This function is true exactly when TriggerPayloadSchema.safeParse succeeds
on the payload. -/
def validateTriggerPayload (p : TriggerPayload) : Bool :=
  isUrl p.repository.url && isUrl p.pullRequest.url

/-! ## JSON values and JavaScript coercions (for response handling) -/

/-- JSON values, as produced by JSON.parse. -/
inductive Json where
  | null
  | bool (b : Bool)
  | num (n : Int)
  | str (s : String)
  | arr (elems : List Json)
  | obj (fields : List (String × Json))

/-- Property access `data.k` on a parsed JSON value: a lookup on objects,
`undefined` (here `none`) on the other non-null values (primitives are
boxed for property access in JavaScript and yield `undefined`). Property
access on JSON null throws a TypeError in JavaScript; JSON.parse never
yields `undefined`, so that throw is modelled at the one call site that can
reach it, the fallback branch of `sendTrigger`, which guards for null
before calling this function. -/
def jsField : Json → String → Option Json
  | Json.obj fields, k => fields.lookup k
  | _, _ => none

/-- JavaScript truthiness of a possibly-undefined JSON value. -/
def jsTruthyJ : Option Json → Bool
  | none => false
  | some Json.null => false
  | some (Json.bool b) => b
  | some (Json.num n) => n ≠ 0
  | some (Json.str s) => s ≠ ""
  | some (Json.arr _) => true
  | some (Json.obj _) => true

/-- Models the JavaScript `a || b` operator on JSON values. -/
def jsOrJ (a b : Option Json) : Option Json :=
  if jsTruthyJ a then a else b

/-- Models the JavaScript `String(x)` coercion on the values reachable in
the response-handling fallback (composite values are approximated; no claim
depends on them). -/
def jsToString : Option Json → String
  | none => "undefined"
  | some Json.null => "null"
  | some (Json.bool b) => if b then "true" else "false"
  | some (Json.num n) => toString n
  | some (Json.str s) => s
  | some (Json.arr _) => ""
  | some (Json.obj _) => "[object Object]"

/-- Result of `TriggerResponseSchema.safeParse`: succeeds exactly when the
value is an object whose success, invocationId and conversationId fields
have the right primitive types (zod object schemas ignore and strip unknown
keys). -/
def triggerResponseSafeParse (j : Json) : Option TriggerResponse :=
  match j with
  | Json.obj _ =>
    match jsField j "success", jsField j "invocationId", jsField j "conversationId" with
    | some (Json.bool b), some (Json.str i), some (Json.str c) =>
      some { success := b, invocationId := i, conversationId := c }
    | _, _, _ => none
  | _ => none

/-! ## External library primitives (parameters of the embedding) -/

/-- The library primitives the action calls but does not define:
glob is `minimatch(path, pattern)`, regexTest is
`new RegExp(pattern).test(s)`, stringify is `JSON.stringify` on a trigger
payload, hmacHex is `createHmac('sha256', secret).update(m).digest('hex')`
(first argument the secret, second the message), jsonParse is `JSON.parse`
(returning `none` when parsing throws). -/
structure Libs where
  glob : String → String → Bool
  regexTest : String → String → Bool
  stringify : TriggerPayload → String
  hmacHex : String → String → String
  jsonParse : String → Option Json

/-! ## Dispatcher (src/trigger/client.ts) -/

/-- Version constant from src/trigger/client.ts. -/
def PACKAGE_VERSION : String := "0.1.0"

/-- Embeds computeSignature: the sha256= prefix followed by the hex
HMAC-SHA256 digest of the payload string under the secret. -/
def computeSignature (hmacHex : String → String → String)
    (payload : String) (secret : String) : String :=
  "sha256=" ++ hmacHex secret payload

/-- An HTTP response as observed by the action (status and text body). -/
structure HttpResponse where
  status : Nat
  body : String
deriving DecidableEq, Repr

/-- Models the `response.ok` property: status in the range 200-299. -/
def respOk (r : HttpResponse) : Bool :=
  200 ≤ r.status && r.status < 300

/-- The outbound POST assembled by sendTrigger. -/
structure TriggerRequest where
  url : String
  method : String
  headers : List (String × String)
  body : String
deriving DecidableEq, Repr

/-- Result of sendTrigger: the returned value (or thrown error message) and
the request that was sent (the fetch happens before any response handling,
so the request record is always present). -/
structure SendResult where
  result : Except String TriggerResponse
  request : TriggerRequest
deriving Repr

/-- Embeds sendTrigger from src/trigger/client.ts. The response the
destination would give is passed in as `resp`. When schema validation
fails, the code reads `data.success` on the parsed value; if that value is
JSON null the property access throws a TypeError (a 2xx body of the four
characters null reaches this), which the model surfaces as the thrown
message. -/
def sendTrigger (libs : Libs) (triggerUrl : String) (payload : TriggerPayload)
    (signingSecret : Option String) (resp : HttpResponse) : SendResult :=
  let body := libs.stringify payload
  let baseHeaders : List (String × String) :=
    [("Content-Type", "application/json"),
     ("User-Agent", "inkeep-agents-action/" ++ PACKAGE_VERSION)]
  let headers :=
    if optTruthy signingSecret then
      baseHeaders ++
        [("X-Signature-256", computeSignature libs.hmacHex body (signingSecret.getD ""))]
    else baseHeaders
  let request : TriggerRequest :=
    { url := triggerUrl, method := "POST", headers := headers, body := body }
  if !respOk resp then
    { result := Except.error
        ("Trigger request failed (" ++ toString resp.status ++ "): " ++ resp.body
          ++ "\n" ++ "URL: " ++ stripQuery triggerUrl),
      request := request }
  else
    match libs.jsonParse resp.body with
    | none =>
      { result := Except.error ("Invalid JSON response from trigger: " ++ resp.body),
        request := request }
    | some responseData =>
      match triggerResponseSafeParse responseData with
      | some r => { result := Except.ok r, request := request }
      | none =>
        match responseData with
        | Json.null =>
          { result := Except.error "TypeError: Cannot read properties of null",
            request := request }
        | _ =>
          { result := Except.ok
              { success := jsTruthyJ (jsField responseData "success"),
                invocationId := jsToString (jsOrJ (jsField responseData "invocationId")
                  (jsOrJ (jsField responseData "invocation_id") (some (Json.str "")))),
                conversationId := jsToString (jsOrJ (jsField responseData "conversationId")
                  (jsOrJ (jsField responseData "conversation_id") (some (Json.str "")))) },
            request := request }

/-! ## Authenticator (src/auth/token.ts) -/

/-- Default API base constant from src/auth/token.ts. -/
def DEFAULT_API_BASE_URL : String := "https://api.pilot.inkeep.com"

/-- Token-exchange path constant from src/auth/token.ts. -/
def TOKEN_EXCHANGE_PATH : String := "/work-apps/github/token-exchange"

/-- OIDC audience constant from src/auth/token.ts. -/
def OIDC_AUDIENCE : String := "inkeep-agents-action"

/-- Models `baseUrl.replace(/\/$/, '')`: removes a single trailing slash. -/
def stripTrailingSlash (s : String) : String :=
  match s.toList.reverse with
  | '/' :: rest => String.mk rest.reverse
  | _ => s

/-- What the token-exchange endpoint answers: the HTTP status, the text body
read on the error path, and the decoded JSON data read on the success path. -/
structure ExchangeResponse where
  status : Nat
  bodyText : String
  data : TokenExchangeResponse
deriving DecidableEq, Repr

/-- The outbound token-exchange POST assembled by getGitHubToken. -/
structure ExchangePost where
  url : String
  method : String
  body : TokenExchangeRequest
deriving DecidableEq, Repr

/-- Result of getGitHubToken: the token (or thrown error message) and the
token-exchange request that was posted, if any. -/
structure TokenResult where
  result : Except String String
  post : Option ExchangePost
deriving Repr

/-- Embeds getGitHubToken from src/auth/token.ts. `oidcToken` is what
`core.getIDToken(OIDC_AUDIENCE)` would return and `resp` is what the
token-exchange endpoint would answer. -/
def getGitHubToken (projectId : String) (overrideToken : Option String)
    (apiBaseUrl : Option String) (oidcToken : Option String)
    (resp : ExchangeResponse) : TokenResult :=
  if optTruthy overrideToken then
    { result := Except.ok (overrideToken.getD ""), post := none }
  else if !optTruthy oidcToken then
    { result := Except.error
        "Failed to get OIDC token. Ensure the workflow has \"id-token: write\" permission.",
      post := none }
  else
    let baseUrl := jsStrOr apiBaseUrl DEFAULT_API_BASE_URL
    let tokenExchangeUrl := stripTrailingSlash baseUrl ++ TOKEN_EXCHANGE_PATH
    let request : TokenExchangeRequest :=
      { oidc_token := oidcToken.getD "", project_id := projectId }
    let post : ExchangePost :=
      { url := tokenExchangeUrl, method := "POST", body := request }
    if 200 ≤ resp.status && resp.status < 300 then
      { result := Except.ok resp.data.token, post := some post }
    else if resp.status = 401 then
      { result := Except.error ("OIDC token validation failed: " ++ resp.bodyText),
        post := some post }
    else if resp.status = 403 then
      { result := Except.error
          ("GitHub App not installed on this repository. Please install the Inkeep GitHub App. Details: "
            ++ resp.bodyText),
        post := some post }
    else
      { result := Except.error
          ("Token exchange failed (" ++ toString resp.status ++ "): " ++ resp.bodyText),
        post := some post }

/-- Models the JavaScript `Array.prototype.indexOf`: the index of the first
occurrence, or -1 when absent. -/
def jsIndexOf : List String → String → Int
  | [], _ => -1
  | a :: as, s =>
    if a = s then 0
    else
      let r := jsIndexOf as s
      if r = -1 then -1 else r + 1

/-- Embeds getProjectIdFromTriggerUrl from src/auth/token.ts: split the URL
pathname on slashes, locate the literal projects component, and take the
segment after it; an unparseable URL propagates the constructor throw. -/
def getProjectIdFromTriggerUrl (triggerUrl : String) : Except String String :=
  match urlPathname triggerUrl with
  | none => Except.error ("Invalid URL: " ++ triggerUrl)
  | some pathname =>
    let parts := splitSlash pathname
    let projectIndex := jsIndexOf parts "projects"
    if projectIndex = -1 || projectIndex + 1 ≥ (parts.length : Int) then
      Except.error
        ("Invalid trigger URL format: could not extract project ID from " ++ triggerUrl)
    else
      Except.ok (parts.getD (projectIndex + 1).toNat "")

/-! ## Event Resolver (src/github/context.ts) -/

/-- Owner block of the repository object in the raw event payload. -/
structure RawRepoOwner where
  login : Option String
  name : Option String
deriving DecidableEq, Repr

/-- Repository block of the raw event payload. -/
structure RawRepo where
  owner : Option RawRepoOwner
  name : Option String
  full_name : String
  html_url : String
  default_branch : Option String
deriving DecidableEq, Repr

/-- Sender block of the raw event payload. -/
structure RawSender where
  login : String
  id : Nat
  avatar_url : String
  html_url : String
deriving DecidableEq, Repr

/-- Issue block of the raw event payload; the pull_request field is the
back-reference whose presence marks the issue as a pull request. -/
structure RawIssue where
  number : Nat
  pull_request : Option Unit
deriving DecidableEq, Repr

/-- Pull-request block of the raw event payload (only its number is read). -/
structure RawPRRef where
  number : Nat
deriving DecidableEq, Repr

/-- Comment block of the raw event payload (only its id is read). -/
structure RawCommentRef where
  id : Nat
deriving DecidableEq, Repr

/-- The JSON event payload read from GITHUB_EVENT_PATH, with the fields
parseEventContext accesses. -/
structure RawEventPayload where
  action : Option String
  repository : Option RawRepo
  sender : Option RawSender
  pull_request : Option RawPRRef
  issue : Option RawIssue
  comment : Option RawCommentRef
deriving DecidableEq, Repr

/-- The github.context.repo fallback values used when the payload lacks
owner or name. -/
structure ParseCtx where
  owner : String
  repo : String
deriving DecidableEq, Repr

/-- Output of parseEventContext. -/
structure EventContext where
  event : GitHubEvent
  repository : Repository
  sender : GitHubUser
  pullRequestNumber : Nat
  triggerCommentId : Option Nat
deriving DecidableEq, Repr

/-- The error thrown for an issue_comment event that is not on a pull
request. -/
def notAPullRequestMessage : String :=
  "issue_comment event is not associated with a pull request. This action only supports PR comments."

/-- The error thrown when no pull-request number can be determined. -/
def missingPRNumberMessage (eventName : String) : String :=
  "Could not determine pull request number from event \"" ++ eventName ++ "\". "
    ++ "This action only supports pull_request, issue_comment (on PRs), and pull_request_review events."

/-- Embeds parseEventContext from src/github/context.ts. `eventName` and
`eventPath` are the GITHUB_EVENT_NAME and GITHUB_EVENT_PATH environment
variables; `payload` is the parsed event file; `ctx` supplies the
github.context.repo fallbacks. -/
def parseEventContext (eventName : Option String) (eventPath : Option String)
    (payload : RawEventPayload) (ctx : ParseCtx) : Except String EventContext :=
  if !optTruthy eventName then
    Except.error "GITHUB_EVENT_NAME environment variable is not set"
  else if !optTruthy eventPath then
    Except.error "GITHUB_EVENT_PATH environment variable is not set"
  else
    let name := eventName.getD ""
    let action := jsStrOr payload.action ""
    match payload.repository with
    | none => Except.error "Event payload does not contain repository information"
    | some repo =>
      let repository : Repository :=
        { owner := jsStrOr (repo.owner.bind RawRepoOwner.login)
            (jsStrOr (repo.owner.bind RawRepoOwner.name) ctx.owner),
          name := jsStrOr repo.name ctx.repo,
          fullName := repo.full_name,
          url := repo.html_url,
          defaultBranch := jsStrOr repo.default_branch "main" }
      match payload.sender with
      | none => Except.error "Event payload does not contain sender information"
      | some senderData =>
        let sender : GitHubUser :=
          { login := senderData.login, id := senderData.id,
            avatarUrl := senderData.avatar_url, url := senderData.html_url }
        let resolved : Except String (Option Nat × Option Nat) :=
          if name = "pull_request" || name = "pull_request_review" then
            Except.ok (jsNumOrNull (payload.pull_request.map RawPRRef.number), none)
          else if name = "issue_comment" then
            match payload.issue with
            | some issue =>
              if issue.pull_request.isSome then
                Except.ok (some issue.number, jsNumOrNull (payload.comment.map RawCommentRef.id))
              else
                Except.error notAPullRequestMessage
            | none => Except.error notAPullRequestMessage
          else if name = "pull_request_review_comment" then
            Except.ok (jsNumOrNull (payload.pull_request.map RawPRRef.number),
              jsNumOrNull (payload.comment.map RawCommentRef.id))
          else
            Except.ok (none, none)
        match resolved with
        | Except.error e => Except.error e
        | Except.ok (pullRequestNumber, triggerCommentId) =>
          if !optNumTruthy pullRequestNumber then
            Except.error (missingPRNumberMessage name)
          else
            Except.ok
              { event := { type := name, action := action },
                repository := repository,
                sender := sender,
                pullRequestNumber := pullRequestNumber.getD 0,
                triggerCommentId := triggerCommentId }

/-! ## Context Fetcher (src/github/pr.ts) -/

/-- Raw user object from the GitHub REST API. -/
structure RawUser where
  login : String
  id : Nat
  avatar_url : String
  html_url : String
deriving DecidableEq, Repr

/-- Embeds mapUser from src/github/pr.ts. -/
def mapUser (user : RawUser) : GitHubUser :=
  { login := user.login, id := user.id,
    avatarUrl := user.avatar_url, url := user.html_url }

/-- Raw pull-request object returned by pulls.get. -/
structure RawPullRequest where
  number : Nat
  title : String
  body : Option String
  user : RawUser
  html_url : String
  state : String
  base_ref : String
  base_sha : String
  head_ref : String
  head_sha : String
  created_at : String
  updated_at : String
deriving DecidableEq, Repr

/-- Embeds fetchPullRequest from src/github/pr.ts: the mapping applied to
the object pulls.get returns. -/
def fetchPullRequest (pr : RawPullRequest) : PullRequest :=
  { number := pr.number, title := pr.title, body := pr.body,
    author := mapUser pr.user, url := pr.html_url, state := pr.state,
    base := { ref := pr.base_ref, sha := pr.base_sha },
    head := { ref := pr.head_ref, sha := pr.head_sha },
    createdAt := pr.created_at, updatedAt := pr.updated_at }

/-- Raw changed-file object returned by pulls.listFiles, together with the
outcome the per-file repos.getContent call would have: `some s` when the
fetch succeeds with base64 content decoding to `s`, `none` when the fetch
throws or the content shape is unusable (that failure is non-fatal in the
code and merely leaves contents unset). -/
structure RawFile where
  filename : String
  status : FileStatus
  additions : Nat
  deletions : Nat
  patch : Option String
  previous_filename : Option String
  contentFetch : Option String
deriving DecidableEq, Repr

/-- Whether a file is skipped by the path filter: the filter is applied only
when truthy, using the glob matcher (minimatch in the code). -/
def fileFilteredOut (glob : String → String → Bool)
    (pathFilter : Option String) (f : RawFile) : Bool :=
  match pathFilter with
  | some g => g ≠ "" && !glob f.filename g
  | none => false

/-- The ChangedFile record built for one surviving raw file. -/
def mapChangedFile (f : RawFile) (includeContents includePatches : Bool) : ChangedFile :=
  { path := f.filename, status := f.status,
    additions := f.additions, deletions := f.deletions,
    patch := if includePatches then f.patch else none,
    previousPath := f.previous_filename,
    contents :=
      if includeContents && f.status ≠ FileStatus.removed then f.contentFetch
      else none }

/-- The inner loop of fetchChangedFiles over one page of files. -/
def processFilePage (glob : String → String → Bool) (pathFilter : Option String)
    (includeContents includePatches : Bool) : List RawFile → List ChangedFile
  | [] => []
  | f :: fs =>
    if fileFilteredOut glob pathFilter f then
      processFilePage glob pathFilter includeContents includePatches fs
    else
      mapChangedFile f includeContents includePatches
        :: processFilePage glob pathFilter includeContents includePatches fs

/-- Embeds fetchChangedFiles from src/github/pr.ts: the pagination iterator
yields `pages`, each page is filtered and mapped in order, and the results
are accumulated across pages. -/
def fetchChangedFiles (glob : String → String → Bool)
    (pages : List (List RawFile)) (pathFilter : Option String)
    (includeContents : Bool := false) (includePatches : Bool := false) :
    List ChangedFile :=
  match pages with
  | [] => []
  | p :: ps =>
    processFilePage glob pathFilter includeContents includePatches p
      ++ fetchChangedFiles glob ps pathFilter includeContents includePatches

/-- Raw issue comment returned by issues.listComments. -/
structure RawIssueComment where
  id : Nat
  body : Option String
  user : RawUser
  created_at : String
  updated_at : Option String
deriving DecidableEq, Repr

/-- Raw review comment returned by pulls.listReviewComments. -/
structure RawReviewComment where
  id : Nat
  body : String
  user : RawUser
  created_at : String
  updated_at : Option String
  path : String
  line : Option Nat
  original_line : Option Nat
deriving DecidableEq, Repr

/-- The Comment record built for one raw issue comment (type issue). -/
def mapIssueComment (c : RawIssueComment) : Comment :=
  { id := c.id, body := c.body.getD "", author := mapUser c.user,
    createdAt := c.created_at, updatedAt := c.updated_at,
    type := CommentType.issue }

/-- The Comment record built for one raw review comment (type review). -/
def mapReviewComment (c : RawReviewComment) : Comment :=
  { id := c.id, body := c.body, author := mapUser c.user,
    createdAt := c.created_at, updatedAt := c.updated_at,
    type := CommentType.review, path := some c.path,
    line := jsNumOr c.line c.original_line }

/-- The trigger-comment test in fetchComments:
`triggerCommentId && comment.id === triggerCommentId`. -/
def tcMatch (triggerCommentId : Option Nat) (commentId : Nat) : Bool :=
  match triggerCommentId with
  | some t => t ≠ 0 && commentId = t
  | none => false

/-- One pass of the fetchComments inner loop over the items of a page:
every comment is pushed, and the one whose id equals the trigger id is
remembered as the trigger comment. -/
def commentItemsLoop {α : Type} (triggerCommentId : Option Nat) (f : α → Comment) :
    List α → List Comment × Option Comment → List Comment × Option Comment
  | [], acc => acc
  | r :: rs, (cs, tc) =>
    let m := f r
    commentItemsLoop triggerCommentId f rs
      (cs ++ [m], if tcMatch triggerCommentId m.id then some m else tc)

/-- The fetchComments loop over the pages of one listing. -/
def commentPagesLoop {α : Type} (triggerCommentId : Option Nat) (f : α → Comment) :
    List (List α) → List Comment × Option Comment → List Comment × Option Comment
  | [], acc => acc
  | p :: ps, acc =>
    commentPagesLoop triggerCommentId f ps (commentItemsLoop triggerCommentId f p acc)

/-- Embeds fetchComments from src/github/pr.ts: the issue-comment pages are
accumulated first, then the review-comment pages, marking the comment whose
id equals triggerCommentId as the trigger comment. -/
def fetchComments (issuePages : List (List RawIssueComment))
    (reviewPages : List (List RawReviewComment))
    (triggerCommentId : Option Nat) : List Comment × Option Comment :=
  let afterIssue :=
    commentPagesLoop triggerCommentId mapIssueComment issuePages ([], none)
  commentPagesLoop triggerCommentId mapReviewComment reviewPages afterIssue

/-- Output of fetchPRContext. -/
structure PRContext where
  pullRequest : PullRequest
  changedFiles : List ChangedFile
  comments : List Comment
  triggerComment : Option Comment
deriving DecidableEq, Repr

/-- The data the GitHub REST API would serve for one pull request. -/
structure PRRemoteData where
  pr : RawPullRequest
  filePages : List (List RawFile)
  issueCommentPages : List (List RawIssueComment)
  reviewCommentPages : List (List RawReviewComment)
deriving DecidableEq, Repr

/-- Embeds fetchPRContext from src/github/pr.ts: pull-request details first,
then the changed files and the comments (concurrent in the code, which the
pure model sequences without loss). -/
def fetchPRContext (glob : String → String → Bool) (data : PRRemoteData)
    (pathFilter : Option String) (includeContents : Bool)
    (triggerCommentId : Option Nat) : PRContext :=
  let pullRequest := fetchPullRequest data.pr
  let changedFiles := fetchChangedFiles glob data.filePages pathFilter includeContents
  let cpair := fetchComments data.issueCommentPages data.reviewCommentPages triggerCommentId
  { pullRequest := pullRequest, changedFiles := changedFiles,
    comments := cpair.1, triggerComment := cpair.2 }

/-! ## The action entry point (src/index.ts, run) -/

/-- The raw action inputs as core.getInput returns them (an unset input is
the empty string). -/
structure RunRawInputs where
  triggerUrl : String
  signingSecret : String
  githubToken : String
  pathFilter : String
  prTitleRegex : String
  apiBaseUrl : String
deriving DecidableEq, Repr

/-- An existing bot pull request as returned by checkBotPRExists (only its
number and url are read by run). -/
structure BotPR where
  number : Nat
  url : String
deriving DecidableEq, Repr

/-- Everything outside the process that a run observes: environment
variables, the event file, the github.context fallbacks, the OIDC provider,
the token-exchange endpoint, the existing-bot-PR search result, the GitHub
REST data, and the dispatch response. -/
structure World where
  eventName : Option String
  eventPath : Option String
  eventPayload : RawEventPayload
  ctx : ParseCtx
  oidcToken : Option String
  exchange : ExchangeResponse
  existingBotPR : Option BotPR
  prData : PRRemoteData
  dispatchResp : HttpResponse

/-- The payload object literal assembled in run. -/
def buildPayload (ec : EventContext) (pc : PRContext) : TriggerPayload :=
  { event := ec.event, repository := ec.repository,
    pullRequest := pc.pullRequest, sender := ec.sender,
    changedFiles := pc.changedFiles, comments := pc.comments,
    triggerComment := pc.triggerComment }

/-- A dispatch that took place: the wire request and the structured payload
it carried. -/
structure DispatchRecord where
  request : TriggerRequest
  payload : TriggerPayload
deriving Repr

/-- Observable outcome of one run: the outputs set via core.setOutput in
order, the message passed to core.setFailed if the run failed, the
token-exchange POST if one was made, and the dispatch POST if one was made. -/
structure RunResult where
  outputs : List (String × String)
  failed : Option String
  tokenExchangePost : Option ExchangePost
  dispatched : Option DispatchRecord
deriving Repr

/-- Embeds run from src/index.ts (the entry point with the bot-PR guard,
the path filter, the title filter and the bot-comment guard). Every thrown
error is caught by the surrounding try/catch and surfaced through
core.setFailed, which the model records in the failed field. -/
def run (libs : Libs) (inputs : RunRawInputs) (w : World) : RunResult :=
  if inputs.triggerUrl = "" then
    { outputs := [], failed := some "Input required and not supplied: trigger-url",
      tokenExchangePost := none, dispatched := none }
  else
    let triggerUrl := inputs.triggerUrl
    let signingSecret := jsOptStr inputs.signingSecret
    let githubTokenOverride := jsOptStr inputs.githubToken
    let pathFilter := jsOptStr inputs.pathFilter
    let prTitleRegex := jsOptStr inputs.prTitleRegex
    let apiBaseUrl := jsOptStr inputs.apiBaseUrl
    match parseEventContext w.eventName w.eventPath w.eventPayload w.ctx with
    | Except.error e =>
      { outputs := [], failed := some e, tokenExchangePost := none, dispatched := none }
    | Except.ok eventContext =>
      match getProjectIdFromTriggerUrl triggerUrl with
      | Except.error e =>
        { outputs := [], failed := some e, tokenExchangePost := none, dispatched := none }
      | Except.ok projectId =>
        let tokenResult :=
          getGitHubToken projectId githubTokenOverride apiBaseUrl w.oidcToken w.exchange
        match tokenResult.result with
        | Except.error e =>
          { outputs := [], failed := some e,
            tokenExchangePost := tokenResult.post, dispatched := none }
        | Except.ok _githubToken =>
          match w.existingBotPR with
          | some existingBotPR =>
            { outputs :=
                [("skipped", "true"), ("skip-reason", "bot-pr-exists"),
                 ("existing-bot-pr-number", toString existingBotPR.number),
                 ("existing-bot-pr-url", existingBotPR.url)],
              failed := none, tokenExchangePost := tokenResult.post, dispatched := none }
          | none =>
            let prContext :=
              fetchPRContext libs.glob w.prData pathFilter false
                eventContext.triggerCommentId
            if optTruthy pathFilter && prContext.changedFiles.isEmpty then
              { outputs := [("skipped", "true"), ("skip-reason", "no-matching-files")],
                failed := none, tokenExchangePost := tokenResult.post, dispatched := none }
            else if (match prTitleRegex with
                     | some rx => !libs.regexTest rx prContext.pullRequest.title
                     | none => false) then
              { outputs := [("skipped", "true"), ("skip-reason", "title-no-match")],
                failed := none, tokenExchangePost := tokenResult.post, dispatched := none }
            else
              let payload := buildPayload eventContext prContext
              if (match prContext.triggerComment with
                  | some c => c.author.login == "inkeep[bot]"
                  | none => false) then
                { outputs := [("skipped", "true"), ("skip-reason", "inkeep-bot-comment")],
                  failed := none, tokenExchangePost := tokenResult.post, dispatched := none }
              else
                let sendResult :=
                  sendTrigger libs triggerUrl payload signingSecret w.dispatchResp
                match sendResult.result with
                | Except.error e =>
                  { outputs := [], failed := some e,
                    tokenExchangePost := tokenResult.post,
                    dispatched := some { request := sendResult.request, payload := payload } }
                | Except.ok response =>
                  { outputs :=
                      [("invocation-id", response.invocationId),
                       ("conversation-id", response.conversationId)],
                    failed := none, tokenExchangePost := tokenResult.post,
                    dispatched := some { request := sendResult.request, payload := payload } }

/-! ## Helper observers used in theorem statements -/

/-- Looks up a header value by exact name. -/
def headerValue : List (String × String) → String → Option String
  | [], _ => none
  | (k, v) :: rest, key => if k = key then some v else headerValue rest key

/-- The thrown message of a dispatcher result, if it failed. -/
def errMsgOf : Except String TriggerResponse → Option String
  | Except.error m => some m
  | Except.ok _ => none

/-- Whether a dispatcher result failed with a message containing the given
substring. -/
def errContains (r : Except String TriggerResponse) (needle : String) : Bool :=
  match r with
  | Except.error m => strContains m needle
  | Except.ok _ => false

/-- Schema validity of the payload a run dispatched, if it dispatched one. -/
def dispatchedPayloadValid (r : RunResult) : Option Bool :=
  r.dispatched.map (fun d => validateTriggerPayload d.payload)

/-! ## Concrete fixtures for witnesses and counterexamples -/

/-- A concrete instantiation of the external library primitives. -/
def exLibs : Libs :=
  { glob := fun _ _ => true,
    regexTest := fun _ _ => true,
    stringify := fun _ => "{}",
    hmacHex := fun secret msg => secret ++ "|" ++ msg,
    jsonParse := fun _ =>
      some (Json.obj
        [("success", Json.bool true), ("invocationId", Json.str "i1"),
         ("conversationId", Json.str "c1")]) }

/-- A concrete GitHub user fixture. -/
def exUser : RawUser :=
  { login := "octocat", id := 1,
    avatar_url := "https://avatars.example.com/u/1",
    html_url := "https://github.com/octocat" }

/-- The bot identity fixture. -/
def botUser : RawUser :=
  { login := "inkeep[bot]", id := 99,
    avatar_url := "https://avatars.example.com/u/99",
    html_url := "https://github.com/apps/inkeep" }

/-- A concrete sender block fixture. -/
def exSender : RawSender :=
  { login := "octocat", id := 1,
    avatar_url := "https://avatars.example.com/u/1",
    html_url := "https://github.com/octocat" }

/-- A concrete repository block fixture. -/
def exRawRepo : RawRepo :=
  { owner := some { login := some "octo", name := none },
    name := some "repo", full_name := "octo/repo",
    html_url := "https://github.com/octo/repo",
    default_branch := some "main" }

/-- A concrete raw pull request fixture. -/
def exRawPR : RawPullRequest :=
  { number := 5, title := "Add docs", body := some "body",
    user := exUser, html_url := "https://github.com/octo/repo/pull/5",
    state := "open", base_ref := "main", base_sha := "b1",
    head_ref := "feature", head_sha := "h1",
    created_at := "2026-01-01", updated_at := "2026-01-02" }

/-- A concrete raw changed file fixture. -/
def exFile : RawFile :=
  { filename := "README.md", status := FileStatus.modified,
    additions := 1, deletions := 0, patch := none,
    previous_filename := none, contentFetch := none }

/-- A concrete remote-data fixture for one pull request. -/
def exPRData : PRRemoteData :=
  { pr := exRawPR, filePages := [[exFile]],
    issueCommentPages := [], reviewCommentPages := [] }

/-- A concrete successful token-exchange answer fixture. -/
def exExchange : ExchangeResponse :=
  { status := 200, bodyText := "",
    data := { token := "ghs_tok", expires_at := "2026-01-01",
              repository := "octo/repo", installation_id := 7 } }

/-- A concrete pull_request/opened event payload fixture. -/
def exEventPayload : RawEventPayload :=
  { action := some "opened", repository := some exRawRepo,
    sender := some exSender, pull_request := some { number := 5 },
    issue := none, comment := none }

/-- A concrete world fixture: a pull_request/opened run with an override
token, no bot PR, one changed file, no comments and a 202 answer. -/
def exWorld : World :=
  { eventName := some "pull_request",
    eventPath := some "/github/workflow/event.json",
    eventPayload := exEventPayload,
    ctx := { owner := "octo", repo := "repo" },
    oidcToken := some "oidc-token",
    exchange := exExchange,
    existingBotPR := none,
    prData := exPRData,
    dispatchResp := { status := 202, body := "ack" } }

/-- A concrete inputs fixture with an override token and no filters. -/
def exInputs : RunRawInputs :=
  { triggerUrl := "https://agents.example.com/run/tenants/t1/projects/p1/api",
    signingSecret := "", githubToken := "override-token",
    pathFilter := "", prTitleRegex := "", apiBaseUrl := "" }

/-- The event context that parseEventContext produces on the fixture. -/
def exEventContext : EventContext :=
  { event := { type := "pull_request", action := "opened" },
    repository :=
      { owner := "octo", name := "repo", fullName := "octo/repo",
        url := "https://github.com/octo/repo", defaultBranch := "main" },
    sender := { login := "octocat", id := 1,
                avatarUrl := "https://avatars.example.com/u/1",
                url := "https://github.com/octocat" },
    pullRequestNumber := 5,
    triggerCommentId := none }

/-- World fixture for the C1 counterexample: identical to the base fixture
except the repository html_url in the event payload is not a valid URL, so
the assembled payload violates the url refinement of RepositorySchema. -/
def c1World : World :=
  { exWorld with
    eventPayload := { exEventPayload with
      repository := some { exRawRepo with html_url := "x" } } }

/-- The event context parseEventContext produces on the C1 world. -/
def c1EventContext : EventContext :=
  { exEventContext with
    repository := { exEventContext.repository with url := "x" } }

/-- A token-exchange answer fixture used by the C2 counterexample. -/
def c2Exchange : ExchangeResponse :=
  { status := 200, bodyText := "",
    data := { token := "t", expires_at := "e", repository := "r",
              installation_id := 1 } }

/-- Library fixture for the C3 witness: the glob matcher rejects every
path, so a supplied path filter empties the changed-file list. -/
def c3Libs : Libs := { exLibs with glob := fun _ _ => false }

/-- Inputs fixture for the C3 witness: a path filter is supplied. -/
def c3Inputs : RunRawInputs := { exInputs with pathFilter := "docs/**" }

/-- A bot-authored issue comment fixture. -/
def botComment : RawIssueComment :=
  { id := 9, body := some "I opened a PR for this.", user := botUser,
    created_at := "2026-01-03", updated_at := none }

/-- Event payload fixture for a comment-triggered run: an issue_comment
event on a pull request, triggered by comment 9. -/
def c5EventPayload : RawEventPayload :=
  { action := some "created", repository := some exRawRepo,
    sender := some exSender, pull_request := none,
    issue := some { number := 5, pull_request := some () },
    comment := some { id := 9 } }

/-- World fixture for the C5 witness: the trigger comment is authored by
the bot identity. -/
def c5World : World :=
  { exWorld with
    eventName := some "issue_comment",
    eventPayload := c5EventPayload,
    prData := { exPRData with issueCommentPages := [[botComment]] } }

/-- The event context parseEventContext produces on the C5 world. -/
def c5EventContext : EventContext :=
  { exEventContext with
    event := { type := "issue_comment", action := "created" },
    triggerCommentId := some 9 }

/-- Event payload fixture for the C6 witness: an issue_comment event whose
issue has no pull-request back-reference. -/
def c6EventPayload : RawEventPayload :=
  { action := some "created", repository := some exRawRepo,
    sender := some exSender, pull_request := none,
    issue := some { number := 5, pull_request := none },
    comment := some { id := 9 } }

/-- World fixture for the C6 witness. -/
def c6World : World :=
  { exWorld with
    eventName := some "issue_comment",
    eventPayload := c6EventPayload }

/-- A concrete trigger payload fixture (as assembled on the base world). -/
def exTriggerPayload : TriggerPayload :=
  buildPayload exEventContext
    (fetchPRContext exLibs.glob exPRData none false none)

/-- The dispatch URL fixture for the C7 counterexample: it carries a query
string. -/
def c7Url : String := "https://agents.example.com/hook?token=shh"

/-- The destination answer fixture for the C7 counterexample: the error
body echoes the full URL, query string included. -/
def c7Resp : HttpResponse :=
  { status := 403, body := "forbidden at https://agents.example.com/hook?token=shh" }

/-- Library fixture for the C9 counterexample: JSON.parse of the body
yields the JSON null value, as it does for the body null. -/
def c9Libs : Libs := { exLibs with jsonParse := fun _ => some Json.null }

/-- The destination answer fixture for the C9 counterexample: a 200 answer
whose body is the four characters null. -/
def c9Resp : HttpResponse := { status := 200, body := "null" }

/-! ## Helper lemmas -/

theorem strToList_append : ∀ (a b : String), (a ++ b).toList = a.toList ++ b.toList
  | ⟨_⟩, ⟨_⟩ => rfl

theorem isPrefixB_append (b c : List Char) : isPrefixB b (b ++ c) = true := by
  induction b with
  | nil => rfl
  | cons x xs ih => simp [isPrefixB, ih]

theorem isInfixB_of_isPrefixB (b l : List Char) (h : isPrefixB b l = true) :
    isInfixB b l = true := by
  cases l with
  | nil => simpa [isInfixB] using h
  | cons x rest => simp [isInfixB, h]

theorem isInfixB_append (a b c : List Char) : isInfixB b (a ++ (b ++ c)) = true := by
  induction a with
  | nil => exact isInfixB_of_isPrefixB _ _ (isPrefixB_append b c)
  | cons x xs ih => simp [isInfixB, ih]

theorem strContains_append (p m s : String) : strContains (p ++ m ++ s) m = true := by
  unfold strContains
  rw [strToList_append, strToList_append, List.append_assoc]
  exact isInfixB_append _ _ _

theorem jsOptStr_some_ne {s g : String} (h : jsOptStr s = some g) : g ≠ "" := by
  unfold jsOptStr at h
  by_cases hs : s = "" <;> simp [hs] at h
  intro hg
  exact hs (h.trans hg)

theorem tcMatch_eq {tid : Option Nat} {n : Nat} (h : tcMatch tid n = true) :
    tid = some n := by
  cases tid with
  | none => simp [tcMatch] at h
  | some t =>
    simp [tcMatch] at h
    rw [h.2]

theorem sendTrigger_request (libs : Libs) (url : String) (payload : TriggerPayload)
    (ss : Option String) (resp : HttpResponse) :
    (sendTrigger libs url payload ss resp).request =
      { url := url, method := "POST",
        headers :=
          if optTruthy ss then
            [("Content-Type", "application/json"),
             ("User-Agent", "inkeep-agents-action/" ++ PACKAGE_VERSION),
             ("X-Signature-256",
               computeSignature libs.hmacHex (libs.stringify payload) (ss.getD ""))]
          else
            [("Content-Type", "application/json"),
             ("User-Agent", "inkeep-agents-action/" ++ PACKAGE_VERSION)],
        body := libs.stringify payload } := by
  unfold sendTrigger
  by_cases hss : optTruthy ss = true <;>
    simp only [hss, if_true, if_false, Bool.false_eq_true] <;>
    (repeat' split) <;> rfl

theorem processFilePage_glob (glob : String → String → Bool) (g : String)
    (hg : g ≠ "") (ic ip : Bool) :
    ∀ (fs : List RawFile) (cf : ChangedFile),
      cf ∈ processFilePage glob (some g) ic ip fs → glob cf.path g = true := by
  intro fs
  induction fs with
  | nil => intro cf h; simp [processFilePage] at h
  | cons f rest ih =>
    intro cf h
    by_cases hf : fileFilteredOut glob (some g) f = true
    · rw [processFilePage, if_pos hf] at h
      exact ih cf h
    · rw [processFilePage, if_neg hf] at h
      rcases List.mem_cons.mp h with hcf | hcf
      · subst hcf
        simp [fileFilteredOut, hg] at hf
        simpa [mapChangedFile] using hf
      · exact ih cf hcf

theorem fetchChangedFiles_glob (glob : String → String → Bool) (g : String)
    (hg : g ≠ "") (ic ip : Bool) :
    ∀ (pages : List (List RawFile)) (cf : ChangedFile),
      cf ∈ fetchChangedFiles glob pages (some g) ic ip → glob cf.path g = true := by
  intro pages
  induction pages with
  | nil => intro cf h; simp [fetchChangedFiles] at h
  | cons p ps ih =>
    intro cf h
    rw [fetchChangedFiles] at h
    rcases List.mem_append.mp h with hcf | hcf
    · exact processFilePage_glob glob g hg ic ip p cf hcf
    · exact ih cf hcf

theorem commentItemsLoop_mono {α : Type} (tid : Option Nat) (f : α → Comment) :
    ∀ (rs : List α) (acc : List Comment × Option Comment) (x : Comment),
      x ∈ acc.1 → x ∈ (commentItemsLoop tid f rs acc).1 := by
  intro rs
  induction rs with
  | nil => intro acc x hx; simpa [commentItemsLoop] using hx
  | cons r rest ih =>
    intro acc x hx
    cases acc with
    | mk cs tc =>
      rw [commentItemsLoop]
      exact ih _ x (List.mem_append_left _ hx)

theorem commentItemsLoop_inv {α : Type} (tid : Option Nat) (f : α → Comment) :
    ∀ (rs : List α) (acc : List Comment × Option Comment)
      (_ : ∀ x : Comment, acc.2 = some x → x ∈ acc.1 ∧ tid = some x.id)
      (c : Comment), (commentItemsLoop tid f rs acc).2 = some c →
      c ∈ (commentItemsLoop tid f rs acc).1 ∧ tid = some c.id := by
  intro rs
  induction rs with
  | nil => intro acc hacc c h; simp only [commentItemsLoop] at h ⊢; exact hacc c h
  | cons r rest ih =>
    intro acc hacc c h
    cases acc with
    | mk cs tc =>
      rw [commentItemsLoop] at h ⊢
      refine ih _ ?_ c h
      intro x hx
      by_cases hm : tcMatch tid (f r).id = true
      · rw [if_pos hm] at hx
        have hxf : x = f r := (Option.some.injEq _ _).mp hx.symm
        subst hxf
        exact ⟨List.mem_append_right _ (List.mem_singleton.mpr rfl), tcMatch_eq hm⟩
      · rw [if_neg hm] at hx
        have := hacc x hx
        exact ⟨List.mem_append_left _ this.1, this.2⟩

theorem commentPagesLoop_mono {α : Type} (tid : Option Nat) (f : α → Comment) :
    ∀ (pages : List (List α)) (acc : List Comment × Option Comment) (x : Comment),
      x ∈ acc.1 → x ∈ (commentPagesLoop tid f pages acc).1 := by
  intro pages
  induction pages with
  | nil => intro acc x hx; simpa [commentPagesLoop] using hx
  | cons p ps ih =>
    intro acc x hx
    rw [commentPagesLoop]
    exact ih _ x (commentItemsLoop_mono tid f p acc x hx)

theorem commentPagesLoop_inv {α : Type} (tid : Option Nat) (f : α → Comment) :
    ∀ (pages : List (List α)) (acc : List Comment × Option Comment)
      (_ : ∀ x : Comment, acc.2 = some x → x ∈ acc.1 ∧ tid = some x.id)
      (c : Comment), (commentPagesLoop tid f pages acc).2 = some c →
      c ∈ (commentPagesLoop tid f pages acc).1 ∧ tid = some c.id := by
  intro pages
  induction pages with
  | nil => intro acc hacc c h; simp only [commentPagesLoop] at h ⊢; exact hacc c h
  | cons p ps ih =>
    intro acc hacc c h
    rw [commentPagesLoop] at h ⊢
    exact ih _ (fun x hx => commentItemsLoop_inv tid f p acc hacc x hx) c h

theorem jsIndexOf_not_mem (l : List String) (s : String) (h : s ∉ l) :
    jsIndexOf l s = -1 := by
  induction l with
  | nil => rfl
  | cons a as ih =>
    have ha : a ≠ s := fun e => h (by simp [e])
    have h' : s ∉ as := fun hm => h (List.mem_cons_of_mem a hm)
    simp [jsIndexOf, ha, ih h']

theorem jsIndexOf_first (l₁ l₂ : List String) (s : String) (h : s ∉ l₁) :
    jsIndexOf (l₁ ++ s :: l₂) s = (l₁.length : Int) := by
  induction l₁ with
  | nil => simp [jsIndexOf]
  | cons a as ih =>
    have ha : a ≠ s := fun e => h (by simp [e])
    have h' : s ∉ as := fun hm => h (List.mem_cons_of_mem a hm)
    have hr := ih h'
    rw [List.cons_append, jsIndexOf, if_neg ha]
    rw [hr]
    have hne : (as.length : Int) ≠ -1 := by omega
    rw [if_neg hne]
    simp

theorem mem_decomp_first (l : List String) (s : String) (h : s ∈ l) :
    ∃ l₁ l₂, l = l₁ ++ s :: l₂ ∧ s ∉ l₁ := by
  induction l with
  | nil => simp at h
  | cons a as ih =>
    by_cases ha : a = s
    · exact ⟨[], as, by simp [ha], by simp⟩
    · have hm : s ∈ as := by
        rcases List.mem_cons.mp h with h1 | h1
        · exact absurd h1.symm ha
        · exact h1
      obtain ⟨l₁, l₂, hd, hn⟩ := ih hm
      exact ⟨a :: l₁, l₂, by simp [hd], by
        intro hc
        rcases List.mem_cons.mp hc with h1 | h1
        · exact ha h1.symm
        · exact hn h1⟩

theorem getD_append_len (l l₂ : List String) (k : Nat) (d : String) :
    (l ++ l₂).getD (l.length + k) d = l₂.getD k d := by
  induction l with
  | nil => simp
  | cons a as ih =>
    rw [List.cons_append, List.length_cons]
    have : as.length + 1 + k = (as.length + k) + 1 := by omega
    rw [this, List.getD_cons_succ, ih]

theorem gp_trailing_slash (s path : String) (l : List String)
    (hp : urlPathname s = some path)
    (hsplit : splitSlash path = l ++ ["projects", ""])
    (hnm : "projects" ∉ l) :
    getProjectIdFromTriggerUrl s = Except.ok "" := by
  simp only [getProjectIdFromTriggerUrl, hp, hsplit]
  rw [jsIndexOf_first l [""] "projects" hnm]
  split
  · next hcond =>
    exfalso
    simp only [List.length_append, List.length_cons, List.length_nil,
      Bool.or_eq_true, decide_eq_true_eq] at hcond
    omega
  · next hcond =>
    have ht : ((l.length : Int) + 1).toNat = l.length + 1 := by omega
    rw [ht, getD_append_len]
    rfl

theorem gp_error_iff (s path : String) (hp : urlPathname s = some path) :
    (∃ e, getProjectIdFromTriggerUrl s = Except.error e) ↔
      ("projects" ∉ splitSlash path ∨
        ∃ l, splitSlash path = l ++ ["projects"] ∧ "projects" ∉ l) := by
  simp only [getProjectIdFromTriggerUrl, hp]
  by_cases hmem : "projects" ∈ splitSlash path
  case neg =>
    rw [jsIndexOf_not_mem _ _ hmem]
    constructor
    · intro _
      exact Or.inl hmem
    · intro _
      split
      · exact ⟨_, rfl⟩
      · next hcond => exact absurd (by simp) hcond
  case pos =>
    obtain ⟨l₁, l₂, hd, hn⟩ := mem_decomp_first _ _ hmem
    rw [hd, jsIndexOf_first l₁ l₂ "projects" hn]
    cases l₂ with
    | nil =>
      constructor
      · intro _
        exact Or.inr ⟨l₁, rfl, hn⟩
      · intro _
        split
        · exact ⟨_, rfl⟩
        · next hcond =>
          exfalso
          apply hcond
          simp only [List.length_append, List.length_cons, List.length_nil,
            Bool.or_eq_true, decide_eq_true_eq]
          right
          push_cast
          omega
    | cons b bs =>
      constructor
      · intro ⟨e, he⟩
        split at he
        · next hcond =>
          exfalso
          simp only [List.length_append, List.length_cons,
            Bool.or_eq_true, decide_eq_true_eq] at hcond
          rcases hcond with h1 | h1
          · omega
          · push_cast at h1
            omega
        · simp at he
      · intro hr
        rcases hr with h1 | ⟨l, hl, hnl⟩
        · exact absurd (by simp : "projects" ∈ l₁ ++ "projects" :: b :: bs) h1
        · exfalso
          have e1 : jsIndexOf (l ++ ["projects"]) "projects" = (l.length : Int) :=
            jsIndexOf_first l [] "projects" hnl
          rw [← hl, jsIndexOf_first l₁ (b :: bs) "projects" hn] at e1
          have e2 : (l₁ ++ "projects" :: b :: bs).length = (l ++ ["projects"]).length := by
            rw [hl]
          simp only [List.length_append, List.length_cons, List.length_nil] at e2
          omega

theorem strAppend_assoc : ∀ (a b c : String), (a ++ b) ++ c = a ++ (b ++ c)
  | ⟨a⟩, ⟨b⟩, ⟨c⟩ => congrArg String.mk (List.append_assoc a b c)

theorem strAppend_empty : ∀ (a : String), a ++ "" = a
  | ⟨a⟩ => congrArg String.mk (List.append_nil a)

theorem strContains_of_eq (hay a m b : String) (h : hay = a ++ m ++ b) :
    strContains hay m = true := by
  rw [h]; exact strContains_append a m b

/-! ## Claim theorems -/

/-- C1 counterexample: a concrete run whose event payload carries a
repository html_url that is not a valid URL dispatches a payload that fails
TriggerPayloadSchema; no validation step stops it, so the claim that the
payload is validated before returning and that an invalid payload is never
dispatched is false on the code. -/
theorem c1_counterexample :
    dispatchedPayloadValid (run exLibs exInputs c1World) = some false := by decide

/-- C1 (amended): run performs no runtime validation of the assembled
TriggerPayload; whenever the run reaches the build step and the guards and
filters pass, the payload is dispatched exactly as assembled, whether or
not it satisfies TriggerPayloadSchema (no validity hypothesis appears). -/
theorem c1_dispatch_skips_schema_validation
    (libs : Libs) (inputs : RunRawInputs) (w : World) (ec : EventContext)
    (pid tok : String)
    (ht : inputs.triggerUrl ≠ "")
    (hec : parseEventContext w.eventName w.eventPath w.eventPayload w.ctx = Except.ok ec)
    (hpid : getProjectIdFromTriggerUrl inputs.triggerUrl = Except.ok pid)
    (htok : (getGitHubToken pid (jsOptStr inputs.githubToken) (jsOptStr inputs.apiBaseUrl)
      w.oidcToken w.exchange).result = Except.ok tok)
    (hbot : w.existingBotPR = none)
    (hfiles : optTruthy (jsOptStr inputs.pathFilter) = false ∨
      (fetchPRContext libs.glob w.prData (jsOptStr inputs.pathFilter) false
        ec.triggerCommentId).changedFiles ≠ [])
    (htitle : ∀ rx, jsOptStr inputs.prTitleRegex = some rx →
      libs.regexTest rx (fetchPRContext libs.glob w.prData (jsOptStr inputs.pathFilter) false
        ec.triggerCommentId).pullRequest.title = true)
    (hnotbot : ∀ c, (fetchPRContext libs.glob w.prData (jsOptStr inputs.pathFilter) false
      ec.triggerCommentId).triggerComment = some c → c.author.login ≠ "inkeep[bot]") :
    (run libs inputs w).dispatched.map DispatchRecord.payload =
      some (buildPayload ec (fetchPRContext libs.glob w.prData (jsOptStr inputs.pathFilter) false
        ec.triggerCommentId)) := by
  have hcfiles : (optTruthy (jsOptStr inputs.pathFilter) &&
      (fetchPRContext libs.glob w.prData (jsOptStr inputs.pathFilter) false
        ec.triggerCommentId).changedFiles.isEmpty) = false := by
    rcases hfiles with h | h
    · simp [h]
    · simp [List.isEmpty_iff, h]
  have hctitle : (match jsOptStr inputs.prTitleRegex with
      | some rx => !libs.regexTest rx (fetchPRContext libs.glob w.prData
          (jsOptStr inputs.pathFilter) false ec.triggerCommentId).pullRequest.title
      | none => false) = false := by
    cases hrx : jsOptStr inputs.prTitleRegex with
    | none => rfl
    | some rx => simp [htitle rx hrx]
  have hcbot : (match (fetchPRContext libs.glob w.prData (jsOptStr inputs.pathFilter) false
      ec.triggerCommentId).triggerComment with
      | some c => c.author.login == "inkeep[bot]"
      | none => false) = false := by
    cases htc : (fetchPRContext libs.glob w.prData (jsOptStr inputs.pathFilter) false
        ec.triggerCommentId).triggerComment with
    | none => rfl
    | some c => simp [hnotbot c htc]
  simp only [run, if_neg ht, hec, hpid, htok, hbot, hcfiles, hctitle, hcbot,
    Bool.false_eq_true, if_false]
  split <;> simp

/-- C1 witness: the base fixture run reaches the build step and dispatches
the assembled payload unvalidated. -/
theorem c1_witness :
    (run exLibs exInputs exWorld).dispatched.map DispatchRecord.payload =
      some (buildPayload exEventContext
        (fetchPRContext exLibs.glob exWorld.prData (jsOptStr exInputs.pathFilter) false
          exEventContext.triggerCommentId)) :=
  c1_dispatch_skips_schema_validation exLibs exInputs exWorld exEventContext
    "p1" "override-token" (by decide) rfl rfl rfl rfl (Or.inl rfl)
    (fun rx h => Option.noConfusion (show (none : Option String) = some rx from h))
    (fun c h => Option.noConfusion (show (none : Option Comment) = some c from h))

/-- C2 counterexample: with apiBase https://api.example.com, the
token-exchange POST goes to the work-apps/github/token-exchange path, not to
the token-exchange path the claim names. -/
theorem c2_counterexample :
    (getGitHubToken "p1" none (some "https://api.example.com") (some "tok")
        c2Exchange).post.map ExchangePost.url
      = some "https://api.example.com/work-apps/github/token-exchange" ∧
    (getGitHubToken "p1" none (some "https://api.example.com") (some "tok")
        c2Exchange).post.map ExchangePost.url
      ≠ some "https://api.example.com/token-exchange" := by decide

/-- C2 (amended): when no override token is supplied and an OIDC token is
available, getGitHubToken sends the token-exchange request as a POST to the
URL formed by appending TOKEN_EXCHANGE_PATH
(/work-apps/github/token-exchange) to the apiBase (or the default base URL)
with one trailing slash stripped, with JSON body carrying oidc_token and
project_id. -/
theorem c2_token_exchange_request (projectId : String) (apiBaseUrl : Option String)
    (t : String) (resp : ExchangeResponse) (htr : t ≠ "") :
    (getGitHubToken projectId none apiBaseUrl (some t) resp).post =
      some { url := stripTrailingSlash (jsStrOr apiBaseUrl DEFAULT_API_BASE_URL)
               ++ TOKEN_EXCHANGE_PATH,
             method := "POST",
             body := { oidc_token := t, project_id := projectId } } := by
  have h1 : optTruthy (none : Option String) = false := rfl
  have h2 : optTruthy (some t) = true := by simp [optTruthy, htr]
  simp only [getGitHubToken, h1, h2, Bool.not_true, Bool.false_eq_true, if_false]
  (repeat' split) <;> rfl

/-- C2 witness: the amended claim at a concrete base URL with a trailing
slash. -/
theorem c2_witness :
    (getGitHubToken "p1" none (some "https://api.example.com/") (some "tok")
        exExchange).post =
      some { url := stripTrailingSlash
               (jsStrOr (some "https://api.example.com/") DEFAULT_API_BASE_URL)
               ++ TOKEN_EXCHANGE_PATH,
             method := "POST",
             body := { oidc_token := "tok", project_id := "p1" } } :=
  c2_token_exchange_request "p1" (some "https://api.example.com/") "tok" exExchange
    (by decide)

/-- C3: for every path filter g supplied to the run, every entry of the
resulting changedFiles list has a path the glob matcher accepts against g;
and if that resulting list is empty, the run sets outputs skipped=true and
skip-reason=no-matching-files and no dispatch POST to the trigger URL
occurs. -/
theorem c3_path_filter_and_skip
    (libs : Libs) (inputs : RunRawInputs) (w : World) (g : String) (ec : EventContext)
    (pid tok : String)
    (ht : inputs.triggerUrl ≠ "")
    (hg : jsOptStr inputs.pathFilter = some g)
    (hec : parseEventContext w.eventName w.eventPath w.eventPayload w.ctx = Except.ok ec)
    (hpid : getProjectIdFromTriggerUrl inputs.triggerUrl = Except.ok pid)
    (htok : (getGitHubToken pid (jsOptStr inputs.githubToken) (jsOptStr inputs.apiBaseUrl)
      w.oidcToken w.exchange).result = Except.ok tok)
    (hbot : w.existingBotPR = none) :
    (∀ cf ∈ (fetchPRContext libs.glob w.prData (jsOptStr inputs.pathFilter) false
        ec.triggerCommentId).changedFiles, libs.glob cf.path g = true) ∧
    ((fetchPRContext libs.glob w.prData (jsOptStr inputs.pathFilter) false
        ec.triggerCommentId).changedFiles = [] →
      (run libs inputs w).outputs = [("skipped", "true"), ("skip-reason", "no-matching-files")] ∧
      (run libs inputs w).dispatched = none) := by
  have hgne : g ≠ "" := jsOptStr_some_ne hg
  constructor
  · intro cf hcf
    rw [hg] at hcf
    simp only [fetchPRContext] at hcf
    exact fetchChangedFiles_glob libs.glob g hgne false false w.prData.filePages cf hcf
  · intro hempty
    have hcond : (optTruthy (jsOptStr inputs.pathFilter) &&
        (fetchPRContext libs.glob w.prData (jsOptStr inputs.pathFilter) false
          ec.triggerCommentId).changedFiles.isEmpty) = true := by
      rw [hempty, hg]
      simp [optTruthy, hgne]
    simp only [run, if_neg ht, hec, hpid, htok, hbot, hcond]
    simp

/-- C3 witness: a concrete run whose glob matcher rejects every changed
file path ends skipped with reason no-matching-files and dispatches
nothing. -/
theorem c3_witness :
    (run c3Libs c3Inputs exWorld).outputs =
      [("skipped", "true"), ("skip-reason", "no-matching-files")] ∧
    (run c3Libs c3Inputs exWorld).dispatched = none :=
  (c3_path_filter_and_skip c3Libs c3Inputs exWorld "docs/**" exEventContext
    "p1" "override-token" (by decide) rfl rfl rfl rfl rfl).2 rfl

/-- C4: sendTrigger uses one serialization of the payload: the request body
is that string, the X-Signature-256 header (present whenever a non-empty
signing secret is supplied) is sha256= followed by the hex HMAC-SHA256 of
exactly the request body under the secret, and the signature is a function
of the body and the secret only, so two sends of the same payload under the
same secret carry the same signature. -/
theorem c4_signature_covers_body
    (libs : Libs) (url url₂ : String) (payload : TriggerPayload) (s : String)
    (resp resp₂ : HttpResponse) (hs : s ≠ "") :
    (sendTrigger libs url payload (some s) resp).request.body = libs.stringify payload ∧
    headerValue (sendTrigger libs url payload (some s) resp).request.headers "X-Signature-256"
      = some (computeSignature libs.hmacHex
          ((sendTrigger libs url payload (some s) resp).request.body) s) ∧
    computeSignature libs.hmacHex (libs.stringify payload) s
      = "sha256=" ++ libs.hmacHex s (libs.stringify payload) ∧
    headerValue (sendTrigger libs url₂ payload (some s) resp₂).request.headers "X-Signature-256"
      = headerValue (sendTrigger libs url payload (some s) resp).request.headers
          "X-Signature-256" := by
  have hss : optTruthy (some s) = true := by simp [optTruthy, hs]
  rw [sendTrigger_request, sendTrigger_request, hss]
  simp [headerValue, computeSignature]

/-- C4 witness: the signature property at a concrete secret, payload and
pair of destinations. -/
theorem c4_witness :
    (sendTrigger exLibs "https://a.example.com/x" exTriggerPayload (some "sec")
        { status := 200, body := "{}" }).request.body = exLibs.stringify exTriggerPayload ∧
    headerValue (sendTrigger exLibs "https://a.example.com/x" exTriggerPayload (some "sec")
        { status := 200, body := "{}" }).request.headers "X-Signature-256"
      = some (computeSignature exLibs.hmacHex
          ((sendTrigger exLibs "https://a.example.com/x" exTriggerPayload (some "sec")
            { status := 200, body := "{}" }).request.body) "sec") ∧
    computeSignature exLibs.hmacHex (exLibs.stringify exTriggerPayload) "sec"
      = "sha256=" ++ exLibs.hmacHex "sec" (exLibs.stringify exTriggerPayload) ∧
    headerValue (sendTrigger exLibs "https://b.example.com/y" exTriggerPayload (some "sec")
        { status := 500, body := "err" }).request.headers "X-Signature-256"
      = headerValue (sendTrigger exLibs "https://a.example.com/x" exTriggerPayload (some "sec")
          { status := 200, body := "{}" }).request.headers "X-Signature-256" :=
  c4_signature_covers_body exLibs "https://a.example.com/x" "https://b.example.com/y"
    exTriggerPayload "sec" { status := 200, body := "{}" } { status := 500, body := "err" }
    (by decide)

/-- C5: when the resolver, project-id extraction, token step and bot-PR
guard succeed and the path and title filters pass, a trigger comment whose
author login is the reserved identity inkeep[bot] makes the run terminate
with outputs skipped=true and skip-reason=inkeep-bot-comment and no
dispatch call to the trigger URL occurs. -/
theorem c5_bot_comment_skip
    (libs : Libs) (inputs : RunRawInputs) (w : World) (ec : EventContext)
    (pid tok : String) (c : Comment)
    (ht : inputs.triggerUrl ≠ "")
    (hec : parseEventContext w.eventName w.eventPath w.eventPayload w.ctx = Except.ok ec)
    (hpid : getProjectIdFromTriggerUrl inputs.triggerUrl = Except.ok pid)
    (htok : (getGitHubToken pid (jsOptStr inputs.githubToken) (jsOptStr inputs.apiBaseUrl)
      w.oidcToken w.exchange).result = Except.ok tok)
    (hbot : w.existingBotPR = none)
    (hfiles : optTruthy (jsOptStr inputs.pathFilter) = false ∨
      (fetchPRContext libs.glob w.prData (jsOptStr inputs.pathFilter) false
        ec.triggerCommentId).changedFiles ≠ [])
    (htitle : ∀ rx, jsOptStr inputs.prTitleRegex = some rx →
      libs.regexTest rx (fetchPRContext libs.glob w.prData (jsOptStr inputs.pathFilter) false
        ec.triggerCommentId).pullRequest.title = true)
    (htc : (fetchPRContext libs.glob w.prData (jsOptStr inputs.pathFilter) false
      ec.triggerCommentId).triggerComment = some c)
    (hlogin : c.author.login = "inkeep[bot]") :
    (run libs inputs w).outputs = [("skipped", "true"), ("skip-reason", "inkeep-bot-comment")] ∧
    (run libs inputs w).dispatched = none := by
  have hcfiles : (optTruthy (jsOptStr inputs.pathFilter) &&
      (fetchPRContext libs.glob w.prData (jsOptStr inputs.pathFilter) false
        ec.triggerCommentId).changedFiles.isEmpty) = false := by
    rcases hfiles with h | h
    · simp [h]
    · simp [List.isEmpty_iff, h]
  have hctitle : (match jsOptStr inputs.prTitleRegex with
      | some rx => !libs.regexTest rx (fetchPRContext libs.glob w.prData
          (jsOptStr inputs.pathFilter) false ec.triggerCommentId).pullRequest.title
      | none => false) = false := by
    cases hrx : jsOptStr inputs.prTitleRegex with
    | none => rfl
    | some rx => simp [htitle rx hrx]
  simp only [run, if_neg ht, hec, hpid, htok, hbot, hcfiles, hctitle, htc, hlogin]
  simp

/-- C5 witness: a concrete comment-triggered run whose trigger comment is
authored by inkeep[bot] skips with reason inkeep-bot-comment. -/
theorem c5_witness :
    (run exLibs exInputs c5World).outputs =
      [("skipped", "true"), ("skip-reason", "inkeep-bot-comment")] ∧
    (run exLibs exInputs c5World).dispatched = none :=
  c5_bot_comment_skip exLibs exInputs c5World c5EventContext "p1" "override-token"
    (mapIssueComment botComment) (by decide) rfl rfl rfl rfl (Or.inl rfl)
    (fun rx h => Option.noConfusion (show (none : Option String) = some rx from h))
    rfl rfl

/-- C6: an issue-comment event whose issue object has no pull-request
back-reference makes the Event Resolver fail with the NotAPullRequest
error, the run fails with that message, and no token-exchange POST and no
dispatch POST is made. -/
theorem c6_not_a_pull_request
    (libs : Libs) (inputs : RunRawInputs) (w : World) (iss : RawIssue)
    (ht : inputs.triggerUrl ≠ "")
    (hev : w.eventName = some "issue_comment")
    (hpath : optTruthy w.eventPath = true)
    (hrepo : w.eventPayload.repository.isSome = true)
    (hsender : w.eventPayload.sender.isSome = true)
    (hiss : w.eventPayload.issue = some iss)
    (hback : iss.pull_request = none) :
    parseEventContext w.eventName w.eventPath w.eventPayload w.ctx =
      Except.error notAPullRequestMessage ∧
    (run libs inputs w).failed = some notAPullRequestMessage ∧
    (run libs inputs w).tokenExchangePost = none ∧
    (run libs inputs w).dispatched = none := by
  obtain ⟨repo, hrepo'⟩ := Option.isSome_iff_exists.mp hrepo
  obtain ⟨sender, hsender'⟩ := Option.isSome_iff_exists.mp hsender
  have hperr : parseEventContext w.eventName w.eventPath w.eventPayload w.ctx =
      Except.error notAPullRequestMessage := by
    simp only [parseEventContext, hev, hpath, hrepo', hsender', hiss, hback]
    simp [optTruthy]
  refine ⟨hperr, ?_, ?_, ?_⟩ <;> simp only [run, if_neg ht, hperr]

/-- C6 witness: a concrete issue_comment event on a plain issue fails with
the NotAPullRequest message before any token exchange. -/
theorem c6_witness :
    parseEventContext c6World.eventName c6World.eventPath c6World.eventPayload c6World.ctx =
      Except.error notAPullRequestMessage ∧
    (run exLibs exInputs c6World).failed = some notAPullRequestMessage ∧
    (run exLibs exInputs c6World).tokenExchangePost = none ∧
    (run exLibs exInputs c6World).dispatched = none :=
  c6_not_a_pull_request exLibs exInputs c6World { number := 5, pull_request := none }
    (by decide) rfl rfl rfl rfl rfl rfl

/-- C7 counterexample: a non-2xx response whose body echoes the trigger URL
makes the full URL, query string included, appear in the failure message,
so the claim that the full URL with query parameters never appears in the
failure message is false on the code. -/
theorem c7_counterexample :
    errContains (sendTrigger exLibs c7Url exTriggerPayload none c7Resp).result c7Url = true ∧
    respOk c7Resp = false := by decide

/-- C7 (amended): for every non-2xx response sendTrigger fails with a
message containing the response status, the response body verbatim and the
trigger URL with its query string stripped; the URL line of the message is
the stripped URL, but since the body is included verbatim the full URL can
still surface when the body itself contains it. -/
theorem c7_error_message_contents
    (libs : Libs) (url : String) (payload : TriggerPayload) (ss : Option String)
    (resp : HttpResponse) (hfail : respOk resp = false) :
    errContains (sendTrigger libs url payload ss resp).result (toString resp.status) = true ∧
    errContains (sendTrigger libs url payload ss resp).result resp.body = true ∧
    errContains (sendTrigger libs url payload ss resp).result (stripQuery url) = true := by
  simp only [sendTrigger, hfail, Bool.not_false, if_true, errContains]
  refine ⟨?_, ?_, ?_⟩
  · exact strContains_of_eq _ "Trigger request failed (" (toString resp.status)
      ("): " ++ resp.body ++ "\n" ++ "URL: " ++ stripQuery url)
      (by simp only [strAppend_assoc])
  · exact strContains_of_eq _ ("Trigger request failed (" ++ toString resp.status ++ "): ")
      resp.body ("\n" ++ "URL: " ++ stripQuery url) (by simp only [strAppend_assoc])
  · exact strContains_of_eq _
      ("Trigger request failed (" ++ toString resp.status ++ "): " ++ resp.body ++ "\n"
        ++ "URL: ")
      (stripQuery url) "" (by simp only [strAppend_assoc, strAppend_empty])

/-- C7 witness: a concrete 403 answer with body forbidden produces a failure
message containing 403, forbidden, and the query-stripped URL. -/
theorem c7_witness :
    errContains (sendTrigger exLibs "https://h.example.com/p?x=1" exTriggerPayload none
      { status := 403, body := "forbidden" }).result (toString (403 : Nat)) = true ∧
    errContains (sendTrigger exLibs "https://h.example.com/p?x=1" exTriggerPayload none
      { status := 403, body := "forbidden" }).result "forbidden" = true ∧
    errContains (sendTrigger exLibs "https://h.example.com/p?x=1" exTriggerPayload none
      { status := 403, body := "forbidden" }).result
      (stripQuery "https://h.example.com/p?x=1") = true :=
  c7_error_message_contents exLibs "https://h.example.com/p?x=1" exTriggerPayload none
    { status := 403, body := "forbidden" } (by decide)

/-- C8: whenever fetchComments marks a trigger comment, that comment is a
member of the returned comments list and its id is the requested trigger
comment id, for any triggerCommentId input. -/
theorem c8_trigger_comment_member
    (issuePages : List (List RawIssueComment)) (reviewPages : List (List RawReviewComment))
    (tid : Option Nat) (c : Comment)
    (h : (fetchComments issuePages reviewPages tid).2 = some c) :
    c ∈ (fetchComments issuePages reviewPages tid).1 ∧ tid = some c.id := by
  simp only [fetchComments] at h ⊢
  exact commentPagesLoop_inv tid mapReviewComment reviewPages _
    (fun x hx => commentPagesLoop_inv tid mapIssueComment issuePages ([], none)
      (fun y hy => by simp at hy) x hx) c h

/-- C8 witness: a single bot comment with the trigger id is marked and is a
member of the returned list. -/
theorem c8_witness :
    mapIssueComment botComment ∈ (fetchComments [[botComment]] [] (some 9)).1 ∧
    (some 9 : Option Nat) = some (mapIssueComment botComment).id :=
  c8_trigger_comment_member [[botComment]] [] (some 9) (mapIssueComment botComment) rfl

/-- C9 counterexample: a 200 answer whose body parses to JSON null makes
sendTrigger raise the TypeError from the fallback reading data.success on
null (client.ts line 73) instead of returning a TriggerResponse, so the
claim fails for that 2xx response with a JSON-parseable body. -/
theorem c9_counterexample :
    respOk c9Resp = true ∧
    c9Libs.jsonParse c9Resp.body = some Json.null ∧
    errMsgOf (sendTrigger c9Libs "https://a.example.com/x" exTriggerPayload none
        c9Resp).result
      = some "TypeError: Cannot read properties of null" :=
  ⟨rfl, rfl, rfl⟩

/-- C9 (amended): sendTrigger treats every 2xx status as delivery success
provided the parsed body is not JSON null: any response with status in the
range 200-299 whose body parses as a JSON value other than null yields a
TriggerResponse (via schema validation or the best-effort fallback) rather
than an error; a 2xx body parsing to null instead raises the TypeError
thrown by the fallback reading data.success on null. -/
theorem c9_two_hundred_class_success
    (libs : Libs) (url : String) (payload : TriggerPayload) (ss : Option String)
    (resp : HttpResponse) (j : Json)
    (h1 : 200 ≤ resp.status) (h2 : resp.status < 300)
    (hj : libs.jsonParse resp.body = some j)
    (hnull : j ≠ Json.null) :
    ∃ r, (sendTrigger libs url payload ss resp).result = Except.ok r := by
  have hok : respOk resp = true := by simp [respOk, h1, h2]
  cases j with
  | null => exact absurd rfl hnull
  | bool b =>
    simp only [sendTrigger, hok, Bool.not_true, Bool.false_eq_true, if_false, hj]
    exact ⟨_, rfl⟩
  | num n =>
    simp only [sendTrigger, hok, Bool.not_true, Bool.false_eq_true, if_false, hj]
    exact ⟨_, rfl⟩
  | str s2 =>
    simp only [sendTrigger, hok, Bool.not_true, Bool.false_eq_true, if_false, hj]
    exact ⟨_, rfl⟩
  | arr elems =>
    simp only [sendTrigger, hok, Bool.not_true, Bool.false_eq_true, if_false, hj]
    exact ⟨_, rfl⟩
  | obj fields =>
    simp only [sendTrigger, hok, Bool.not_true, Bool.false_eq_true, if_false, hj]
    split
    · exact ⟨_, rfl⟩
    · exact ⟨_, rfl⟩

/-- C9 witness: a concrete 202 answer whose body parses to a non-null JSON
object yields no delivery error. -/
theorem c9_witness :
    errMsgOf (sendTrigger exLibs "https://a.example.com/x" exTriggerPayload none
      { status := 202, body := "{}" }).result = none := by
  obtain ⟨r, hr⟩ := c9_two_hundred_class_success exLibs "https://a.example.com/x"
    exTriggerPayload none { status := 202, body := "{}" }
    (Json.obj [("success", Json.bool true), ("invocationId", Json.str "i1"),
      ("conversationId", Json.str "c1")]) (by decide) (by decide) rfl
    (fun h => Json.noConfusion h)
  rw [hr]
  rfl

/-- C10: getProjectIdFromTriggerUrl returns the empty string, without
throwing, for a trigger URL whose pathname has its first literal projects
component followed only by the trailing empty segment of a trailing slash;
and it throws exactly when the projects component is absent from the
pathname or its first occurrence is the final path component with no
following segment at all. -/
theorem c10_project_id_extraction (s path : String) (l : List String)
    (hp : urlPathname s = some path) :
    ((splitSlash path = l ++ ["projects", ""] ∧ "projects" ∉ l) →
      getProjectIdFromTriggerUrl s = Except.ok "") ∧
    ((∃ e, getProjectIdFromTriggerUrl s = Except.error e) ↔
      ("projects" ∉ splitSlash path ∨
        ∃ l₂, splitSlash path = l₂ ++ ["projects"] ∧ "projects" ∉ l₂)) :=
  ⟨fun h => gp_trailing_slash s path l hp h.1 h.2, gp_error_iff s path hp⟩

/-- C10 witness: a concrete trigger URL whose path ends in projects/
yields the empty project id rather than an error. -/
theorem c10_witness :
    getProjectIdFromTriggerUrl "https://agents.example.com/run/tenants/t1/projects/" =
      Except.ok "" :=
  (c10_project_id_extraction "https://agents.example.com/run/tenants/t1/projects/"
    "/run/tenants/t1/projects/" ["", "run", "tenants", "t1"] rfl).1
    ⟨by decide, by decide⟩
